import Mathlib

/-!
Shallow embedding of the content-creator Gradio application
(`src/app.py`, `src/client/gemini_client.py`, `src/repository_parser.py`,
`src/config/config_loader.py`, `src/enums.py`, `src/prompts/base_prompts.py`)
together with theorems settling the specification claims.

External effects (the Gemini SDK, the filesystem, the `gitingest` library,
the YAML loader) are modelled as explicit function parameters; every handler
additionally returns the ordered trace of SDK calls it performed, so that
sequencing claims can be stated.  Python exceptions (`gr.Error`,
`ValueError`, ...) are modelled with `Except`.
-/

/-- Python truthiness of an `Optional[str]`: `None` and `""` are falsy. -/
def truthyS : Option String → Bool
  | none => false
  | some s => !s.isEmpty

/-- Gradio file-input value (`gr.FileData`); a present object is always truthy. -/
structure FileData where
  name : String
deriving Repr, DecidableEq

/-- The value forwarded to the SDK as `prompt`.  In `app.py` this is usually a
single string, but the repository branch of `generate_fn` builds a Python
2-tuple of strings (a trailing comma), which we model with `Prompt.pair`. -/
inductive Prompt where
  | str (s : String)
  | pair (fst snd : String)
deriving Repr, DecidableEq

/-- Abstract Gemini client (`BaseGeminiClient` interface used by `app.py`):
`F` is the provider-specific file-upload object type
(`types.File` for AI Studio, `types.Part` for Vertex AI). -/
structure GeminiClient (F : Type) where
  upload_file : String → F
  count_tokens : Prompt → Option F → Nat
  generate_content : Prompt → Option F → String

/-- One observable SDK call, recording its arguments and result. -/
inductive SDKCall (F : Type) where
  | upload_file (path : String) (result : F)
  | count_tokens (prompt : Prompt) (file : Option F) (result : Nat)
  | generate_content (prompt : Prompt) (file : Option F) (result : String)
deriving Repr, DecidableEq

/-- Whether an SDK call is a `generate_content` call. -/
def SDKCall.isGenerate {F : Type} : SDKCall F → Bool
  | .generate_content _ _ _ => true
  | _ => false

/-- Whether an SDK call is a `count_tokens` call. -/
def SDKCall.isCountTokens {F : Type} : SDKCall F → Bool
  | .count_tokens _ _ _ => true
  | _ => false

/-- A trace makes exactly one `generate_content` call, exactly one
`count_tokens` call, and the token count happens strictly before the
generation (no `count_tokens` at or after the first `generate_content`). -/
def singleShotTrace {F : Type} (t : List (SDKCall F)) : Bool :=
  (t.countP SDKCall.isGenerate == 1) &&
  (t.countP SDKCall.isCountTokens == 1) &&
  ((t.dropWhile (fun a => !SDKCall.isGenerate a)).countP SDKCall.isCountTokens == 0)

/-- Result of `generate_fn`: the generated text, the visibility update for the
content row, and the trace of SDK calls performed. -/
structure GenOutcome (F : Type) where
  output : String
  row_visible : Bool
  trace : List (SDKCall F)
deriving Repr, DecidableEq

/-- Python `sum(map(bool, [input_text, input_file, (tree or content)]))`
from the exclusivity check of `generate_fn` (`app.py` lines 63-75). -/
def providedInputCount (input_text : Option String) (input_file : Option FileData)
    (tree content : Option String) : Nat :=
  (if truthyS input_text then 1 else 0) +
  (if input_file.isSome then 1 else 0) +
  (if truthyS tree || truthyS content then 1 else 0)

/-- Number of inputs supplied in the sense of claim C1: the repository input
counts as supplied only when both its parsed tree and parsed content are
present.  This definition follows the claim wording, not the code. -/
def claimSuppliedCount (input_text : Option String) (input_file : Option FileData)
    (tree content : Option String) : Nat :=
  (if truthyS input_text then 1 else 0) +
  (if input_file.isSome then 1 else 0) +
  (if truthyS tree && truthyS content then 1 else 0)

/-- Embedding of `generate_fn` (`app.py` lines 24-125). -/
def generate_fn {F : Type} (c : GeminiClient F) (input_text : Option String)
    (input_file : Option FileData)
    (parsed_repository_tree parsed_repository_content : Option String)
    (additional_prompt : String)
    (input_type output_type : Option String) : Except String (GenOutcome F) :=
  if !truthyS input_type then .error "Choose an input type"
  else if !truthyS output_type then .error "Choose an output type"
  else if !truthyS input_text && !input_file.isSome &&
      !(truthyS parsed_repository_tree && truthyS parsed_repository_content) then
    .error "Provide an input file (text, repository or file)"
  else if providedInputCount input_text input_file
      parsed_repository_tree parsed_repository_content > 1 then
    .error "Provide only a single input (text, repository or file)"
  else
    let it := input_type.getD ""
    let ot := output_type.getD ""
    let prompt := "Create a " ++ ot ++ " based on this " ++ it ++ " input."
    if truthyS parsed_repository_tree && truthyS parsed_repository_content then
      let p := Prompt.pair
        (parsed_repository_tree.getD "" ++ "\n" ++
         parsed_repository_content.getD "" ++ "\n")
        (prompt ++ "\n" ++ additional_prompt)
      let tc := c.count_tokens p none
      let out := c.generate_content p none
      .ok ⟨out, true,
        [.count_tokens p none tc, .generate_content p none out]⟩
    else match input_file with
      | some f =>
        let p := Prompt.str (prompt ++ "\n" ++ additional_prompt)
        let fu := c.upload_file f.name
        let tc := c.count_tokens p (some fu)
        let out := c.generate_content p (some fu)
        .ok ⟨out, true,
          [.upload_file f.name fu, .count_tokens p (some fu) tc,
           .generate_content p (some fu) out]⟩
      | none =>
        if truthyS input_text then
          let p := Prompt.str
            (prompt ++ "\n" ++ additional_prompt ++ "\n" ++ input_text.getD "")
          let tc := c.count_tokens p none
          let out := c.generate_content p none
          .ok ⟨out, true,
            [.count_tokens p none tc, .generate_content p none out]⟩
        else
          .ok ⟨"", true, []⟩

/-- Embedding of `iterate_fn` (`app.py` lines 128-156); the result carries the
generated output together with the trace of SDK calls. -/
def iterate_fn {F : Type} (c : GeminiClient F) (prompt additional_prompt : String) :
    Except String (String × List (SDKCall F)) :=
  if prompt.isEmpty then .error "Input prompt is empty"
  else if additional_prompt.isEmpty then .error "Iteration prompt is empty"
  else
    let p := Prompt.str (prompt ++ "\n" ++ additional_prompt)
    let tc := c.count_tokens p none
    let out := c.generate_content p none
    .ok (out, [.count_tokens p none tc, .generate_content p none out])

/-- Python `int()` applied to a number: truncation toward zero. -/
def pyInt (q : ℚ) : ℤ := if q < 0 then ⌈q⌉ else ⌊q⌋

/-- Constant `MAX_FILE_SIZE_MB` from `app.py`. -/
def MAX_FILE_SIZE_MB : ℚ := 10

/-- Embedding of `RepositoryParser.parse_repository`
(`repository_parser.py`): it forwards all four arguments to the external
`gitingest.ingest` call and returns its (summary, tree, content) triple. -/
def RepositoryParser.parse_repository
    (ingest : String → ℤ → Option String → String → String × String × String)
    (repository_path : String) (max_file_size : ℤ)
    (include_patterns : Option String) (exclude_patterns : String) :
    String × String × String :=
  ingest repository_path max_file_size include_patterns exclude_patterns

/-- Embedding of `parse_repository_fn` (`app.py` lines 159-187). -/
def parse_repository_fn
    (ingest : String → ℤ → Option String → String → String × String × String)
    (input_repository_path : String) (max_file_size : ℚ)
    (include_patterns : Option String) (exclude_patterns : String) :
    String × String × String :=
  let max_file_size_bytes := pyInt (max_file_size * 1024 * 1024)
  RepositoryParser.parse_repository ingest input_repository_path
    max_file_size_bytes include_patterns exclude_patterns

/-- Values of the `ContentOutputType` enum (`enums.py`). -/
def ContentOutputType.BLOG_POST : String := "Blog post"

/-- `ContentOutputType.README.value`. -/
def ContentOutputType.README : String := "GitHub README.md file"

/-- `ContentOutputType.CODE_BASE.value`. -/
def ContentOutputType.CODE_BASE : String := "Code base"

/-- `ContentOutputType.CODE_IMPROVEMENT.value`. -/
def ContentOutputType.CODE_IMPROVEMENT : String := "Code improvement"

/-- `ContentOutputType.VIDEO_WALKTHROUGH.value`. -/
def ContentOutputType.VIDEO_WALKTHROUGH : String := "Video walkthrough"

/-- The list `[x.value for x in list(ContentOutputType)]` offered in the
output-type radio (`app.py` lines 328-331). -/
def contentOutputTypeValues : List String :=
  [ContentOutputType.BLOG_POST, ContentOutputType.README,
   ContentOutputType.CODE_BASE, ContentOutputType.CODE_IMPROVEMENT,
   ContentOutputType.VIDEO_WALKTHROUGH]

/-- `DEFAULT_README_PROMPT` from `prompts/base_prompts.py`. -/
def DEFAULT_README_PROMPT : String :=
  "The readme must start with a summary of the app, what it does, and its purpose.\n" ++
  "Create sections for \x27How to use\x27, \x27Examples\x27, \x27Usage\x27, \x27Setup\x27, " ++
  "and \x27App workflow\x27.\n" ++
  "Also, add explanations about the configs and the Makefile commands.\n" ++
  "Use placeholders for the screenshots and architecture diagrams.\n" ++
  "Add disclaimers if necessary."

/-- `DEFAULT_CODE_IMPROVEMENT_PROMPT` from `prompts/base_prompts.py`. -/
def DEFAULT_CODE_IMPROVEMENT_PROMPT : String :=
  "Refactor this code by fixing any existing bug or by " ++
  "adding any relevant performance update.\n" ++
  "Add documentation and typing to all the relevant places.\n" ++
  "Make sure that the code uses the best practices.\n" ++
  "Outline with comments in the code the modification made.\n" ++
  "Only output the actual code, not the code diffs."

/-- `DEFAULT_CODE_BASE_PROMPT` from `prompts/base_prompts.py`. -/
def DEFAULT_CODE_BASE_PROMPT : String :=
  "The code base must be object-oriented and " ++
  "make sure that the code uses the best practices.\n" ++
  "Whenever necessary split the code into different files.\n" ++
  "Create a \x60configs.json\x60 file with all the necessary " ++
  "configuration parameters to run the project.\n" ++
  "Create a \x60requirements.txt\x60 file with all necessary dependencies."

/-- `DEFAULT_BLOG_POST_PROMPT` from `prompts/base_prompts.py`. -/
def DEFAULT_BLOG_POST_PROMPT : String :=
  "The blog post must start with an engaging introduction " ++
  "about why its content is relevant.\n" ++
  "Follow the introduction with a brief overview summary of its content.\n" ++
  "The blog post should describe the main parts of the input " ++
  "step by step in an engaging way.\n" ++
  "For the step-by-step description, when relevant, " ++
  "paste some code pieces from the source.\n" ++
  "By the end add some closing thoughts and a conclusion summarizing the content.\n" ++
  "If it makes sense add suggestions for the next steps."

/-- Embedding of `base_prompt_fn` (`app.py` lines 190-211); Python `.strip()`
is `String.trim`. -/
def base_prompt_fn (output_type : String) (prompt : String) : String :=
  if output_type = ContentOutputType.README then DEFAULT_README_PROMPT.trim
  else if output_type = ContentOutputType.CODE_IMPROVEMENT then
    DEFAULT_CODE_IMPROVEMENT_PROMPT.trim
  else if output_type = ContentOutputType.CODE_BASE then
    DEFAULT_CODE_BASE_PROMPT.trim
  else if output_type = ContentOutputType.BLOG_POST then
    DEFAULT_BLOG_POST_PROMPT.trim
  else prompt

/-- A `gr.Markdown` component update: its value and visibility. -/
structure GrMarkdown where
  value : Option String
  visible : Bool
deriving Repr, DecidableEq

/-- Embedding of `show_markdown_fn` (`app.py` lines 214-237). -/
def show_markdown_fn (content : String) (btn : String) : GrMarkdown × String :=
  if btn = "Show the markdown version" then
    (⟨some content, true⟩, "Hide the markdown version")
  else
    (⟨none, false⟩, "Show the markdown version")

/-- Outcome of opening and `yaml.safe_load`-ing a path.  A present, valid file
parses to `Option D`: a configuration dictionary, or Python `None` when the
YAML document is empty or null.  `otherError` is any exception other than
`FileNotFoundError` and `yaml.YAMLError`. -/
inductive YamlOutcome (D : Type) where
  | notFound
  | yamlError (msg : String)
  | otherError (msg : String)
  | parsed (doc : Option D)
deriving Repr, DecidableEq

/-- Embedding of `load_config` (`config/config_loader.py` lines 11-33):
`FileNotFoundError` and `yaml.YAMLError` are caught and turn into `None`;
any other exception propagates; otherwise the `safe_load` result is returned
as is. -/
def load_config {D : Type} (readYaml : String → YamlOutcome D)
    (config_path : String) : Except String (Option D) :=
  match readYaml config_path with
  | .parsed doc => .ok doc
  | .notFound => .ok none
  | .yamlError _ => .ok none
  | .otherError m => .error m

/-- Reading `configs.yaml` when the file exists but is empty:
`yaml.safe_load` yields Python `None`. -/
def emptyYamlRead : String → YamlOutcome Unit := fun _ => .parsed none

/-- Bytes read from a file, or the failure mode of `open`/`read`. -/
inductive ReadResult where
  | ok (content : List Nat)
  | notFound
  | readErr (msg : String)
deriving Repr, DecidableEq

/-- Python exceptions raised by `_process_file_for_vertex`. -/
inductive PyErr where
  | valueError (msg : String)
  | unicodeDecodeError
deriving Repr, DecidableEq

/-- A `types.Part` as built by `_process_file_for_vertex`: either
`Part.from_text` or `Part.from_bytes` with a MIME type. -/
inductive VertexPart where
  | text (s : String)
  | fromBytes (content : List Nat) (mime : String)
deriving Repr, DecidableEq

/-- Python `str.split(".")` on the character list of a string: splitting on
every dot, keeping empty segments, with `[""]` for the empty string. -/
def splitOnDot : List Char → List (List Char)
  | [] => [[]]
  | c :: rest =>
    match splitOnDot rest with
    | [] => [[]]
    | h :: t => if c = '.' then [] :: h :: t else (c :: h) :: t

/-- Python `file_path.split(".")[-1].lower()`. -/
def fileExtension (file_path : String) : String :=
  ⟨((splitOnDot file_path.data).getLastD []).map Char.toLower⟩

/-- File extensions handled by `_process_file_for_vertex`
(the keys of its `file_type_handlers` dict). -/
def supportedVertexExts : List String := ["txt", "md", "pdf", "py"]

/-- Embedding of `VertexAIGeminiClient._process_file_for_vertex`
(`client/gemini_client.py` lines 184-234).  `readFile` models
`open(file_path, "rb").read()`; `decode` models `bytes.decode()`, returning
`none` on a `UnicodeDecodeError` (which the Python code does not catch). -/
def processFileForVertex (decode : List Nat → Option String)
    (readFile : String → ReadResult) (file_path : String) : Except PyErr VertexPart :=
  let ext := fileExtension file_path
  match readFile file_path with
  | .notFound => .error (.valueError ("File not found: " ++ file_path))
  | .readErr e =>
    .error (.valueError ("Error reading file " ++ file_path ++ ": " ++ e))
  | .ok content =>
    if ext = "txt" || ext = "md" then
      match decode content with
      | some s => .ok (.text s)
      | none => .error .unicodeDecodeError
    else if ext = "pdf" then .ok (.fromBytes content "application/pdf")
    else if ext = "py" then .ok (.fromBytes content "text/x-python-script")
    else
      .error (.valueError
        ("File extension \x27" ++ ext ++ "\x27 not supported by Vertex AI. " ++
         "Current supported extensions: txt, md, pdf, py." ++
         "Consider converting the file to a supported format."))

/-- Whether an `Except` value is a success (the handler did not raise). -/
def exceptIsOk {ε α : Type} : Except ε α → Bool
  | .ok _ => true
  | .error _ => false

/-- A concrete client over `Unit` uploads, used to evaluate handlers on
concrete inputs. -/
def unitClient : GeminiClient Unit :=
  ⟨fun _ => (), fun _ _ => 7, fun _ _ => "generated"⟩

/-- A concrete ingestion callable that reports the byte cutoff it received. -/
def reportingIngest : String → ℤ → Option String → String → String × String × String :=
  fun path bytes _ exclude => (toString bytes, path, exclude)

/-- A concrete byte decoder mapping any content to the string "hi". -/
def constDecode : List Nat → Option String := fun _ => some "hi"

/-- A concrete reader that always returns two bytes. -/
def constRead : String → ReadResult := fun _ => .ok [104, 105]

/-- C9: starting from the button text "Show the markdown version",
`show_markdown_fn` first switches to "Hide the markdown version" with the
markdown visible and holding the content, and applying it again hides the
markdown and restores the original button text: the toggle is a round trip. -/
theorem show_markdown_fn_toggle (c₁ c₂ : String) :
    (show_markdown_fn c₁ "Show the markdown version").2 =
      "Hide the markdown version" ∧
    (show_markdown_fn c₁ "Show the markdown version").1.visible = true ∧
    (show_markdown_fn c₁ "Show the markdown version").1.value = some c₁ ∧
    (show_markdown_fn c₂ (show_markdown_fn c₁ "Show the markdown version").2).2 =
      "Show the markdown version" ∧
    (show_markdown_fn c₂
        (show_markdown_fn c₁ "Show the markdown version").2).1.visible = false := by
  refine ⟨rfl, rfl, rfl, ?_, ?_⟩ <;> simp [show_markdown_fn]

/-- C2 (code bug): with the repository input supplied, the value
`generate_fn` forwards to both `count_tokens` and `generate_content` is a
Python 2-tuple `(tree + "\n" + content + "\n", base + "\n" + additional)`
(a trailing comma in `app.py` lines 85-88), not a single concatenated
string, contradicting the `prompt: str` annotations of those methods. -/
theorem generate_fn_repository_prompt_is_tuple :
    generate_fn unitClient none none (some "TREE") (some "CONTENT") "ADD"
        (some "Code") (some "Blog post") =
      .ok ⟨"generated", true,
        [SDKCall.count_tokens
            (Prompt.pair "TREE\nCONTENT\n"
              "Create a Blog post based on this Code input.\nADD") none 7,
         SDKCall.generate_content
            (Prompt.pair "TREE\nCONTENT\n"
              "Create a Blog post based on this Code input.\nADD") none
            "generated"]⟩ := rfl

/-- C10 (code bug): when the configuration file exists and is valid YAML but
the document is empty (so `yaml.safe_load` yields Python `None`),
`load_config` returns `None` as well, although the file is neither missing
nor invalid — contradicting its own docstring, which promises an empty
dictionary rather than `None` for an empty file. -/
theorem load_config_empty_yaml_returns_none :
    load_config emptyYamlRead "configs.yaml" = .ok none ∧
    emptyYamlRead "configs.yaml" = .parsed none ∧
    exceptIsOk (load_config emptyYamlRead "configs.yaml") = true :=
  ⟨rfl, rfl, rfl⟩

/-- C6: `parse_repository_fn` forwards to the ingestion call the byte cutoff
`int(max_file_size * 1024 * 1024)` (truncation toward zero, which is the
floor for the non-negative sizes of the UI) and returns the ingestion
result unchanged as a (summary, tree, content) triple. -/
theorem parse_repository_fn_forwards_cutoff
    (ingest : String → ℤ → Option String → String → String × String × String)
    (path : String) (max_file_size : ℚ) (inc : Option String) (exc : String) :
    parse_repository_fn ingest path max_file_size inc exc =
      ingest path (pyInt (max_file_size * 1024 * 1024)) inc exc ∧
    (0 ≤ max_file_size →
      pyInt (max_file_size * 1024 * 1024) = ⌊max_file_size * 1024 * 1024⌋) := by
  refine ⟨rfl, fun h => ?_⟩
  have hnn : 0 ≤ max_file_size * 1024 * 1024 := by positivity
  rw [pyInt, if_neg (not_lt.mpr hnn)]

/-- Witness for C6 at a concrete slider value of 10.5 MB. -/
theorem parse_repository_fn_forwards_cutoff_witness :
    (0 ≤ (21 / 2 : ℚ)) ∧
    pyInt ((21 / 2 : ℚ) * 1024 * 1024) = ⌊(21 / 2 : ℚ) * 1024 * 1024⌋ :=
  ⟨by norm_num,
   (parse_repository_fn_forwards_cutoff reportingIngest "repo" (21 / 2) none
      ".*").2 (by norm_num)⟩

/-- C8: `base_prompt_fn` returns the stripped default prompt for exactly the
four output types README, code improvement, code base and blog post, and
returns the current prompt unchanged for every other output type, including
"Video walkthrough", which is one of the offered output options. -/
theorem base_prompt_fn_spec (ot p : String) :
    base_prompt_fn ContentOutputType.README p = DEFAULT_README_PROMPT.trim ∧
    base_prompt_fn ContentOutputType.CODE_IMPROVEMENT p =
      DEFAULT_CODE_IMPROVEMENT_PROMPT.trim ∧
    base_prompt_fn ContentOutputType.CODE_BASE p =
      DEFAULT_CODE_BASE_PROMPT.trim ∧
    base_prompt_fn ContentOutputType.BLOG_POST p =
      DEFAULT_BLOG_POST_PROMPT.trim ∧
    (ot ∉ [ContentOutputType.README, ContentOutputType.CODE_IMPROVEMENT,
        ContentOutputType.CODE_BASE, ContentOutputType.BLOG_POST] →
      base_prompt_fn ot p = p) ∧
    ContentOutputType.VIDEO_WALKTHROUGH ∈ contentOutputTypeValues ∧
    base_prompt_fn ContentOutputType.VIDEO_WALKTHROUGH p = p := by
  refine ⟨by rfl, ?_, ?_, ?_, ?_, by decide, by rfl⟩
  · simp [base_prompt_fn, ContentOutputType.CODE_IMPROVEMENT,
      ContentOutputType.README]
  · simp [base_prompt_fn, ContentOutputType.CODE_BASE,
      ContentOutputType.README, ContentOutputType.CODE_IMPROVEMENT]
  · simp [base_prompt_fn, ContentOutputType.BLOG_POST,
      ContentOutputType.README, ContentOutputType.CODE_IMPROVEMENT,
      ContentOutputType.CODE_BASE]
  · intro h
    simp only [List.mem_cons, List.not_mem_nil, or_false, not_or] at h
    obtain ⟨h1, h2, h3, h4⟩ := h
    simp [base_prompt_fn, h1, h2, h3, h4]

/-- Witness for C8: the "Video walkthrough" output type is not one of the
four with defaults, so the current prompt is returned unchanged. -/
theorem base_prompt_fn_spec_witness :
    base_prompt_fn ContentOutputType.VIDEO_WALKTHROUGH "current" = "current" :=
  (base_prompt_fn_spec ContentOutputType.VIDEO_WALKTHROUGH
    "current").2.2.2.2.1 (by decide)

/-- Truthiness of a present string is its non-emptiness. -/
theorem truthyS_some (s : String) : truthyS (some s) = !s.isEmpty := rfl

/-- Truthiness of an absent string is false. -/
theorem truthyS_none : truthyS none = false := rfl

/-- C5: `iterate_fn` raises an error exactly when the previous output is
empty or the additional instructions are empty; otherwise it returns the
generation result for the previous output concatenated with a newline and
the new instructions. -/
theorem iterate_fn_spec {F : Type} (c : GeminiClient F) (p a : String) :
    ((∃ e, iterate_fn c p a = .error e) ↔ (p = "" ∨ a = "")) ∧
    (p ≠ "" → a ≠ "" →
      iterate_fn c p a =
        .ok (c.generate_content (Prompt.str (p ++ "\n" ++ a)) none,
          [SDKCall.count_tokens (Prompt.str (p ++ "\n" ++ a)) none
             (c.count_tokens (Prompt.str (p ++ "\n" ++ a)) none),
           SDKCall.generate_content (Prompt.str (p ++ "\n" ++ a)) none
             (c.generate_content (Prompt.str (p ++ "\n" ++ a)) none)])) := by
  by_cases hp : p = "" <;> by_cases ha : a = "" <;>
    simp [iterate_fn, String.isEmpty_iff, hp, ha]

/-- Witness for C5 at a concrete previous output and iteration prompt. -/
theorem iterate_fn_spec_witness :
    iterate_fn unitClient "prev" "more" =
      .ok ("generated",
        [SDKCall.count_tokens (Prompt.str "prev\nmore") none 7,
         SDKCall.generate_content (Prompt.str "prev\nmore") none "generated"]) :=
  (iterate_fn_spec unitClient "prev" "more").2 (by decide) (by decide)

/-- C3: when only the text input is supplied (text non-empty, no file, and
empty parsed repository fields), the prompt forwarded to `count_tokens` and
`generate_content` is exactly "Create a {output_type} based on this
{input_type} input." followed by a newline, the additional prompt, another
newline, and the input text. -/
theorem generate_fn_text_prompt {F : Type} (c : GeminiClient F)
    (text add it ot : String) (tree content : Option String)
    (htext : text.isEmpty = false) (hit : it.isEmpty = false)
    (hot : ot.isEmpty = false)
    (htree : truthyS tree = false) (hcontent : truthyS content = false) :
    generate_fn c (some text) none tree content add (some it) (some ot) =
      .ok ⟨c.generate_content
            (Prompt.str ("Create a " ++ ot ++ " based on this " ++ it ++
              " input." ++ "\n" ++ add ++ "\n" ++ text)) none, true,
        [SDKCall.count_tokens
            (Prompt.str ("Create a " ++ ot ++ " based on this " ++ it ++
              " input." ++ "\n" ++ add ++ "\n" ++ text)) none
            (c.count_tokens
              (Prompt.str ("Create a " ++ ot ++ " based on this " ++ it ++
                " input." ++ "\n" ++ add ++ "\n" ++ text)) none),
         SDKCall.generate_content
            (Prompt.str ("Create a " ++ ot ++ " based on this " ++ it ++
              " input." ++ "\n" ++ add ++ "\n" ++ text)) none
            (c.generate_content
              (Prompt.str ("Create a " ++ ot ++ " based on this " ++ it ++
                " input." ++ "\n" ++ add ++ "\n" ++ text)) none)]⟩ := by
  simp [generate_fn, providedInputCount, truthyS_some, truthyS_none, htext,
    hit, hot, htree, hcontent]

/-- Witness for C3 at concrete inputs. -/
theorem generate_fn_text_prompt_witness :
    generate_fn unitClient (some "hello") none none none "extra"
        (some "Code") (some "Blog post") =
      .ok ⟨"generated", true,
        [SDKCall.count_tokens
            (Prompt.str "Create a Blog post based on this Code input.\nextra\nhello")
            none 7,
         SDKCall.generate_content
            (Prompt.str "Create a Blog post based on this Code input.\nextra\nhello")
            none "generated"]⟩ :=
  generate_fn_text_prompt unitClient "hello" "extra" "Code" "Blog post"
    none none rfl rfl rfl rfl rfl

/-- C7: `_process_file_for_vertex` succeeds only when the lowercased text
after the last dot of the path is txt, md, pdf or py; txt and md map to
text parts, pdf to MIME type application/pdf, py to text/x-python-script;
every other extension and every failure of the underlying read raise
`ValueError`. -/
theorem process_file_for_vertex_spec (decode : List Nat → Option String)
    (readFile : String → ReadResult) (file_path : String) :
    ((∃ part, processFileForVertex decode readFile file_path = .ok part) →
       fileExtension file_path ∈ supportedVertexExts) ∧
    (fileExtension file_path ∉ supportedVertexExts →
       ∃ m, processFileForVertex decode readFile file_path =
         .error (.valueError m)) ∧
    (readFile file_path = .notFound →
       processFileForVertex decode readFile file_path =
         .error (.valueError ("File not found: " ++ file_path))) ∧
    (∀ m, readFile file_path = .readErr m →
       processFileForVertex decode readFile file_path =
         .error (.valueError ("Error reading file " ++ file_path ++ ": " ++ m))) ∧
    (∀ content s, readFile file_path = .ok content → decode content = some s →
       (fileExtension file_path = "txt" ∨ fileExtension file_path = "md") →
       processFileForVertex decode readFile file_path = .ok (.text s)) ∧
    (∀ content, readFile file_path = .ok content →
       fileExtension file_path = "pdf" →
       processFileForVertex decode readFile file_path =
         .ok (.fromBytes content "application/pdf")) ∧
    (∀ content, readFile file_path = .ok content →
       fileExtension file_path = "py" →
       processFileForVertex decode readFile file_path =
         .ok (.fromBytes content "text/x-python-script")) := by
  unfold processFileForVertex supportedVertexExts
  cases hread : readFile file_path with
  | notFound => simp
  | readErr m => simp
  | ok content =>
    by_cases h1 : fileExtension file_path = "txt"
    · cases hdec : decode content <;> simp [h1, hdec] <;>
        rintro c1 s rfl hd <;> rw [hdec] at hd <;>
        simp_all
    · by_cases h2 : fileExtension file_path = "md"
      · cases hdec : decode content <;> simp [h1, h2, hdec] <;>
          rintro c1 s rfl hd <;> rw [hdec] at hd <;>
          simp_all
      · by_cases h3 : fileExtension file_path = "pdf"
        · simp [h1, h2, h3]
        · by_cases h4 : fileExtension file_path = "py"
          · simp [h1, h2, h3, h4]
          · simp [h1, h2, h3, h4]

/-- Witness for C7: a readable UTF-8 text file and a python file. -/
theorem process_file_for_vertex_spec_witness :
    processFileForVertex constDecode constRead "notes.txt" =
      .ok (.text "hi") ∧
    processFileForVertex constDecode constRead "script.py" =
      .ok (.fromBytes [104, 105] "text/x-python-script") :=
  ⟨(process_file_for_vertex_spec constDecode constRead
      "notes.txt").2.2.2.2.1 [104, 105] "hi" rfl rfl (Or.inl (by decide)),
   (process_file_for_vertex_spec constDecode constRead
      "script.py").2.2.2.2.2.2 [104, 105] rfl (by decide)⟩

/-- C1 counterexample: with input and output types chosen, text supplied,
no file, a non-empty parsed repository tree but empty parsed content,
exactly one of the three inputs is supplied in the sense of the claim (the
repository counts as supplied only when both parsed fields are present),
yet `generate_fn` raises rather than proceeding to generation. -/
theorem generate_fn_exactly_one_refuted :
    claimSuppliedCount (some "x") none (some "tree") none = 1 ∧
    generate_fn unitClient (some "x") none (some "tree") none ""
        (some "Code") (some "Blog post") =
      .error "Provide only a single input (text, repository or file)" :=
  ⟨rfl, rfl⟩

/-- C1 amended: with input and output types chosen, `generate_fn` proceeds
to generation if and only if some input is supplied in the presence sense
(text, file, or both parsed repository fields) and at most one input is
counted by the exclusivity check, in which the repository counts as
provided as soon as either parsed field is non-empty; otherwise it raises
an error. -/
theorem generate_fn_validation_amended {F : Type} (c : GeminiClient F)
    (input_text : Option String) (input_file : Option FileData)
    (tree content : Option String) (add : String) (it ot : Option String)
    (hit : truthyS it = true) (hot : truthyS ot = true) :
    exceptIsOk (generate_fn c input_text input_file tree content add it ot) =
      ((truthyS input_text || input_file.isSome ||
        (truthyS tree && truthyS content)) &&
       decide (providedInputCount input_text input_file tree content ≤ 1)) := by
  cases htext : truthyS input_text <;> cases hfile : input_file <;>
    cases htree : truthyS tree <;> cases hcont : truthyS content <;>
      simp [generate_fn, providedInputCount, exceptIsOk, hit, hot, htext,
        htree, hcont]

/-- Witness for C1 amended: a single text input with types chosen passes
validation and generation proceeds. -/
theorem generate_fn_validation_amended_witness :
    exceptIsOk (generate_fn unitClient (some "hello") none none none "add"
      (some "Code") (some "Blog post")) = true := by
  rw [generate_fn_validation_amended unitClient (some "hello") none none none
    "add" (some "Code") (some "Blog post") rfl rfl]
  decide

/-- C4: in every execution of `generate_fn` or `iterate_fn` that reaches the
SDK, `count_tokens` is called before `generate_content`, and
`generate_content` is invoked exactly once, with no retry: every successful
run produces a trace with exactly one token count strictly preceding
exactly one generation. -/
theorem sdk_call_sequencing {F : Type} (c : GeminiClient F)
    (input_text : Option String) (input_file : Option FileData)
    (tree content : Option String) (add : String) (it ot : Option String)
    (p a : String) :
    (∀ r, generate_fn c input_text input_file tree content add it ot = .ok r →
       singleShotTrace r.trace = true) ∧
    (∀ out tr, iterate_fn c p a = .ok (out, tr) →
       singleShotTrace tr = true) := by
  constructor
  · intro r hr
    unfold generate_fn at hr
    split at hr
    · exact Except.noConfusion hr
    · split at hr
      · exact Except.noConfusion hr
      · split at hr
        · exact Except.noConfusion hr
        · split at hr
          · exact Except.noConfusion hr
          · split at hr
            · simp only [Except.ok.injEq] at hr
              rw [← hr]
              rfl
            · split at hr
              · simp only [Except.ok.injEq] at hr
                rw [← hr]
                rfl
              · split at hr
                · simp only [Except.ok.injEq] at hr
                  rw [← hr]
                  rfl
                · exfalso
                  simp_all
  · intro out tr h
    unfold iterate_fn at h
    split at h
    · exact Except.noConfusion h
    · split at h
      · exact Except.noConfusion h
      · simp only [Except.ok.injEq, Prod.mk.injEq] at h
        rw [← h.2]
        rfl

/-- Witness for C4: the trace of a concrete successful `iterate_fn` run is
one token count followed by one generation. -/
theorem sdk_call_sequencing_witness :
    singleShotTrace
      ([SDKCall.count_tokens (Prompt.str "prev\nmore") none 7,
        SDKCall.generate_content (Prompt.str "prev\nmore") none "generated"] :
        List (SDKCall Unit)) = true :=
  (sdk_call_sequencing unitClient none none none none "" none none
    "prev" "more").2 "generated"
    [SDKCall.count_tokens (Prompt.str "prev\nmore") none 7,
     SDKCall.generate_content (Prompt.str "prev\nmore") none "generated"] rfl
